import Mathlib

/-
Shallow embedding of the ArcticCare API gamification subsystem
(users router: points, level, streak, badge unlock; stats router and
ranking router: rank computations).  Times are modelled as integer
milliseconds since the epoch; JavaScript numbers carrying integer
values are modelled as Int.  Math.floor(x / d) on an exact integer x
and positive integer d is Int.fdiv x d; the JavaScript remainder on
non-negative operands agrees with Int's %.
-/

namespace ArcticCare

def msPerHour : Int := 3600000

def msPerDay : Int := 86400000

/-- A row of the user table; the fields the gamification routes read
and write (id, points, level, currentStreak, longestStreak,
lastActiveAt) plus the display name. -/
structure User where
  id : String
  name : String
  points : Int
  level : Int
  currentStreak : Int
  longestStreak : Int
  lastActiveAt : Int
deriving Repr, DecidableEq

/-- A row of the badge table. -/
structure Badge where
  id : String
  name : String
  description : String
  icon : String
  points : Int
  category : String
deriving Repr, DecidableEq

/-- A row of the userBadge join table (unique on (userId, badgeId)). -/
structure UserBadge where
  userId : String
  badgeId : String
  unlockedAt : Int
deriving Repr, DecidableEq

/-- A row of the contribution ledger. -/
structure Contribution where
  userId : String
  type : String
  points : Int
  description : String
  createdAt : Int
deriving Repr, DecidableEq

/-- The relational store the routes query and update. -/
structure Store where
  users : List User
  badges : List Badge
  userBadges : List UserBadge
  contributions : List Contribution
deriving Repr, DecidableEq

/-- prisma.user.findUnique (where id). -/
def findUser (s : Store) (id : String) : Option User :=
  s.users.find? (fun u => decide (u.id = id))

/-- prisma.badge.findUnique (where id). -/
def findBadge (s : Store) (id : String) : Option Badge :=
  s.badges.find? (fun b => decide (b.id = id))

/-- prisma.userBadge.findUnique (where userId_badgeId). -/
def findUserBadge (s : Store) (uid bid : String) : Option UserBadge :=
  s.userBadges.find? (fun ub => decide (ub.userId = uid ∧ ub.badgeId = bid))

-- ============================================
-- Badge unlock (POST /api/users/:id/badges)
-- ============================================

inductive UnlockResult where
  | invalidInput
  | userNotFound
  | badgeNotFound
  | conflict
  | unlocked (id name : String) (pointsEarned : Int)
deriving Repr, DecidableEq

/-- POST /api/users/:id/badges: validate badgeId, look up the user and
the badge, refuse when the (userId, badgeId) pair already exists;
otherwise create the UserBadge row, increment the user's points by the
badge's points, and append one badge_unlocked contribution.  The level
field is not touched by this route. -/
def tryUnlock (s : Store) (uid bid : String) (now : Int) : Store × UnlockResult :=
  if bid = "" then (s, .invalidInput)
  else
    match findUser s uid with
    | none => (s, .userNotFound)
    | some _ =>
      match findBadge s bid with
      | none => (s, .badgeNotFound)
      | some b =>
        match findUserBadge s uid bid with
        | some _ => (s, .conflict)
        | none =>
          let s1 : Store := { s with userBadges := s.userBadges ++ [⟨uid, bid, now⟩] }
          let s2 : Store := { s1 with users := s1.users.map (fun v =>
            if v.id = uid then { v with points := v.points + b.points } else v) }
          let s3 : Store := { s2 with contributions := s2.contributions ++
            [⟨uid, "badge_unlocked", b.points, "Desbloqueou badge: " ++ b.name, now⟩] }
          (s3, .unlocked b.id b.name b.points)

-- ============================================
-- Streak (PUT /api/users/:id/streak, GET /api/users/:id/streak)
-- ============================================

structure TouchResult where
  user : User
  streakBroken : Bool
  bonus : Option Int
deriving Repr, DecidableEq

/-- The per-user effect of PUT /api/users/:id/streak.
daysSinceActive = Math.floor((now - lastActiveAt) / msPerDay); same
day keeps the streak, the next day increments it, anything else resets
it to 1 and marks the streak broken; longestStreak becomes
Math.max(newStreak, longestStreak) and lastActiveAt becomes now.  The
weekly bonus (newStreak > currentStreak and newStreak % 7 == 0) adds
newStreak points. -/
def touchStreak (u : User) (now : Int) : TouchResult :=
  let daysSinceActive := (now - u.lastActiveAt).fdiv msPerDay
  let ns : Int × Bool :=
    if daysSinceActive = 0 then (u.currentStreak, false)
    else if daysSinceActive = 1 then (u.currentStreak + 1, false)
    else (1, true)
  let newStreak := ns.1
  let bonus : Option Int :=
    if newStreak > u.currentStreak ∧ newStreak % 7 = 0 then some newStreak else none
  { user := { u with currentStreak := newStreak,
                     longestStreak := max newStreak u.longestStreak,
                     lastActiveAt := now,
                     points := u.points + bonus.getD 0 },
    streakBroken := ns.2,
    bonus := bonus }

/-- PUT /api/users/:id/streak at store level: update the user row and,
when the weekly bonus fires, append one streak_bonus contribution. -/
def putStreakHandler (s : Store) (id : String) (now : Int) : Store × Option TouchResult :=
  match findUser s id with
  | none => (s, none)
  | some u =>
    let r := touchStreak u now
    let s1 : Store := { s with users := s.users.map (fun v => if v.id = id then r.user else v) }
    let s2 : Store :=
      match r.bonus with
      | some b => { s1 with contributions := s1.contributions ++
          [⟨id, "streak_bonus", b, "Streak de " ++ toString b ++ " dias!", now⟩] }
      | none => s1
    (s2, some r)

structure StreakView where
  currentStreak : Int
  longestStreak : Int
  lastActiveAt : Int
  streakActive : Bool
deriving Repr, DecidableEq

/-- The body of GET /api/users/:id/streak.  The source computes
hoursSinceActive = (now - lastActiveAt) / msPerHour (exact division)
and streakActive = hoursSinceActive < 48, which is equivalent to
now - lastActiveAt < 48 * msPerHour. -/
def getStreakView (u : User) (now : Int) : StreakView :=
  let streakActive := now - u.lastActiveAt < 48 * msPerHour
  { currentStreak := if streakActive then u.currentStreak else 0,
    longestStreak := u.longestStreak,
    lastActiveAt := u.lastActiveAt,
    streakActive := streakActive }

/-- GET /api/users/:id/streak at store level: a pure read, the store
comes back unchanged. -/
def getStreakHandler (s : Store) (id : String) (now : Int) : Store × Option StreakView :=
  match findUser s id with
  | none => (s, none)
  | some u => (s, some (getStreakView u now))

-- ============================================
-- Points and level (PUT /api/users/:id/points)
-- ============================================

/-- The level computation of PUT /api/users/:id/points:
Math.floor(newPoints / 100) + 1. -/
def levelOf (p : Int) : Int := p.fdiv 100 + 1

/-- The per-user effect of PUT /api/users/:id/points: action "set"
replaces the points, any other action adds; level is recomputed from
the new points; nothing else changes. -/
def updatePointsUser (u : User) (action : String) (pts : Int) : User :=
  let newPoints := if action = "set" then pts else u.points + pts
  { u with points := newPoints, level := levelOf newPoints }

/-- PUT /api/users/:id/points at store level: the route writes the
user row and nothing else; in particular no contribution is created.
The Bool reports whether an update happened. -/
def updatePointsHandler (s : Store) (id : String) (pts : Option Int) (action : String) :
    Store × Bool :=
  match pts with
  | none => (s, false)
  | some p =>
    match findUser s id with
    | none => (s, false)
    | some _ =>
      ({ s with users := s.users.map (fun v =>
          if v.id = id then updatePointsUser v action p else v) }, true)

/-- Sum of a user's contribution points (the reward ledger total). -/
def ledgerSum (s : Store) (id : String) : Int :=
  ((s.contributions.filter (fun c => decide (c.userId = id))).map (fun c => c.points)).sum

-- ============================================
-- Level progress (GET /api/users/:id/gamification)
-- ============================================

/-- The levelProgress computation of GET /api/users/:id/gamification:
pointsForNextLevel = level * 100, pointsInCurrentLevel = points % 100,
levelProgress = pointsInCurrentLevel / pointsForNextLevel * 100,
clamped by Math.min(levelProgress, 100).  Real-number division is
modelled in ℚ. -/
def gamificationProgress (points level : Int) : ℚ :=
  let pointsForNextLevel : Int := level * 100
  let pointsInCurrentLevel : Int := points % 100
  min (((pointsInCurrentLevel : ℚ) / (pointsForNextLevel : ℚ)) * 100) 100

/-- Modelled from the spec: the claimed progress formula
(points mod 100) / (level * 100) * 100, clamped to at most 100. -/
def claimedLevelProgress (points level : Int) : ℚ :=
  min ((((points % 100 : Int) : ℚ) / ((level : ℚ) * 100)) * 100) 100

-- ============================================
-- Ranking (GET /api/ranking, GET /api/stats/user/:userId)
-- ============================================

/-- Insert a user into a list sorted by descending points (prisma
orderBy points desc; ties keep retrieval order). -/
def sortInsert (u : User) : List User → List User
  | [] => [u]
  | v :: vs => if v.points < u.points then u :: v :: vs else v :: sortInsert u vs

/-- Sort users by descending points. -/
def sortByPointsDesc : List User → List User
  | [] => []
  | u :: us => sortInsert u (sortByPointsDesc us)

/-- Number of contribution rows of a user (the _count select of the
ranking query; no date condition appears in the query). -/
def contribCount (s : Store) (id : String) : Nat :=
  (s.contributions.filter (fun c => decide (c.userId = id))).length

structure RankEntry where
  rank : Nat
  id : String
  points : Int
  contributions : Nat
deriving Repr, DecidableEq

/-- GET /api/ranking: skip = (page - 1) * limit; for type "monthly"
the source computes dateFilter = { createdAt: { gte: startOfMonth } }
but the variable is never used by the queries that follow, exactly as
in the source; the page is the descending-points order with rank =
skip + index + 1. -/
def rankingList (s : Store) (rtype : String) (startOfMonth : Int) (page limit : Nat) :
    List RankEntry :=
  let skip := (page - 1) * limit
  let _dateFilter : Option Int := if rtype = "monthly" then some startOfMonth else none
  let pageUsers := ((sortByPointsDesc s.users).drop skip).take limit
  pageUsers.enum.map (fun p =>
    { rank := skip + p.1 + 1, id := p.2.id, points := p.2.points,
      contributions := contribCount s p.2.id })

/-- GET /api/stats/user/:userId: rank = usersAbove + 1 where
usersAbove = count of users with strictly greater points. -/
def userRank (s : Store) (id : String) : Option Nat :=
  (findUser s id).map
    (fun u => (s.users.filter (fun v => decide (u.points < v.points))).length + 1)

-- ============================================
-- Concrete instances used in scenarios and witnesses
-- ============================================

def anaUser : User := ⟨"u1", "Ana", 0, 1, 0, 0, 0⟩

def reporteBadge : Badge :=
  ⟨"b1", "Primeiro Reporte", "Primeiro problema reportado", "star", 10, "reporter"⟩

def unlockStore : Store := ⟨[anaUser], [reporteBadge], [], []⟩

def streakUser : User := ⟨"U", "U", 100, 2, 6, 6, 0⟩

def streakStore : Store := ⟨[streakUser], [], [], []⟩

def graceUser : User := ⟨"G", "G", 0, 1, 5, 5, 0⟩

def rankUserA : User := ⟨"A", "A", 450, 1, 0, 0, 0⟩

def rankUserB : User := ⟨"B", "B", 320, 1, 0, 0, 0⟩

def rankUserC : User := ⟨"C", "C", 280, 1, 0, 0, 0⟩

def rankStore : Store := ⟨[rankUserA, rankUserB, rankUserC], [], [], []⟩

def monthStore : Store := ⟨[rankUserA], [], [], [⟨"A", "issue_reported", 450, "old", 5⟩]⟩

def ledgerUser : User := ⟨"u1", "Ana", 30, 1, 2, 3, 9⟩

def ledgerStore : Store := ⟨[ledgerUser], [], [], [⟨"u1", "comment", 30, "Comentou", 1⟩]⟩

-- ============================================
-- Claims
-- ============================================

/-- Claim C1: badge unlock is exactly-once.  When a prior (userId,
badgeId) UserBadge row exists, tryUnlock reports conflict and the
store is unchanged (no new UserBadge row, no new Contribution row, no
point change); when no prior pair exists and both the user and the
badge exist, it adds exactly one UserBadge row, increments exactly
that user's points by the badge's points, and appends exactly one
badge_unlocked contribution carrying those points. -/
theorem c1_badge_unlock_exactly_once (s : Store) (uid bid : String) (now : Int)
    (u : User) (b : Badge) (hbid : ¬ bid = "")
    (hu : findUser s uid = some u) (hb : findBadge s bid = some b) :
    (∀ ub, findUserBadge s uid bid = some ub →
      tryUnlock s uid bid now = (s, .conflict))
    ∧ (findUserBadge s uid bid = none →
      tryUnlock s uid bid now =
        ({ users := s.users.map (fun v =>
             if v.id = uid then { v with points := v.points + b.points } else v),
           badges := s.badges,
           userBadges := s.userBadges ++ [⟨uid, bid, now⟩],
           contributions := s.contributions ++
             [⟨uid, "badge_unlocked", b.points, "Desbloqueou badge: " ++ b.name, now⟩] },
         .unlocked b.id b.name b.points)) := by
  constructor
  · intro ub hub
    simp [tryUnlock, hbid, hu, hb, hub]
  · intro hnone
    simp [tryUnlock, hbid, hu, hb, hnone]

/-- Witness for C1: the spec's badge-unlock scenario, a user with no
prior badges unlocking the 10-point badge "Primeiro Reporte". -/
theorem c1_witness :
    tryUnlock unlockStore "u1" "b1" 5 =
      (⟨[⟨"u1", "Ana", 10, 1, 0, 0, 0⟩], [reporteBadge], [⟨"u1", "b1", 5⟩],
        [⟨"u1", "badge_unlocked", 10, "Desbloqueou badge: Primeiro Reporte", 5⟩]⟩,
       .unlocked "b1" "Primeiro Reporte" 10) := by
  have h := (c1_badge_unlock_exactly_once unlockStore "u1" "b1" 5 anaUser reporteBadge
      (by decide) (by decide) (by decide)).2 (by decide)
  rw [h]
  decide

/-- Claim C2: the streak touch state machine.  With daysSinceActive =
floor((now - lastActiveAt) / 1 day): 0 keeps the streak, 1 increments
it, at least 2 resets it to 1 and reports streakBroken; in every case
longestStreak becomes max(longestStreak, newStreak) and lastActiveAt
becomes now. -/
theorem c2_streak_touch_state_machine (u : User) (now : Int) :
    ((now - u.lastActiveAt).fdiv msPerDay = 0 →
      (touchStreak u now).user.currentStreak = u.currentStreak
      ∧ (touchStreak u now).streakBroken = false)
    ∧ ((now - u.lastActiveAt).fdiv msPerDay = 1 →
      (touchStreak u now).user.currentStreak = u.currentStreak + 1
      ∧ (touchStreak u now).streakBroken = false)
    ∧ (2 ≤ (now - u.lastActiveAt).fdiv msPerDay →
      (touchStreak u now).user.currentStreak = 1
      ∧ (touchStreak u now).streakBroken = true)
    ∧ (touchStreak u now).user.longestStreak =
        max u.longestStreak (touchStreak u now).user.currentStreak
    ∧ (touchStreak u now).user.lastActiveAt = now := by
  refine ⟨fun h0 => ?_, fun h1 => ?_, fun h2 => ?_, ?_, ?_⟩
  · simp [touchStreak, h0]
  · simp [touchStreak, h1]
  · have h0 : ¬ (now - u.lastActiveAt).fdiv msPerDay = 0 := by omega
    have h1 : ¬ (now - u.lastActiveAt).fdiv msPerDay = 1 := by omega
    simp [touchStreak, h0, h1]
  · simp [touchStreak, max_comm]
  · simp [touchStreak]

/-- Witness for C2: a touch exactly one day after lastActiveAt takes
the increment path. -/
theorem c2_witness :
    (touchStreak streakUser msPerDay).user.currentStreak = streakUser.currentStreak + 1 :=
  ((c2_streak_touch_state_machine streakUser msPerDay).2.1 (by decide)).1

/-- Claim C3: the weekly streak bonus of exactly newStreak points
fires if and only if the new streak is strictly greater than the
previous streak and a multiple of 7; it never fires on the same-day
path nor when the new streak is 1 (the reset path); a touch from
currentStreak = 6 one day after lastActiveAt yields streak 7 with a
7-point streak_bonus contribution and a 7-point increment. -/
theorem c3_weekly_streak_bonus (u : User) (now : Int) :
    ((touchStreak u now).bonus =
      if (touchStreak u now).user.currentStreak > u.currentStreak
         ∧ (touchStreak u now).user.currentStreak % 7 = 0
      then some ((touchStreak u now).user.currentStreak) else none)
    ∧ ((now - u.lastActiveAt).fdiv msPerDay = 0 → (touchStreak u now).bonus = none)
    ∧ ((touchStreak u now).user.currentStreak = 1 → (touchStreak u now).bonus = none)
    ∧ (touchStreak streakUser msPerDay).user.currentStreak = 7
    ∧ (touchStreak streakUser msPerDay).bonus = some 7
    ∧ (putStreakHandler streakStore "U" msPerDay).1.contributions =
        [⟨"U", "streak_bonus", 7, "Streak de 7 dias!", msPerDay⟩]
    ∧ (putStreakHandler streakStore "U" msPerDay).1.users =
        [⟨"U", "U", 107, 2, 7, 7, msPerDay⟩] := by
  refine ⟨rfl, fun h0 => ?_, fun h1 => ?_, by decide, by decide, by decide, by decide⟩
  · simp [touchStreak, h0]
  · have heq : (touchStreak u now).bonus =
        if (touchStreak u now).user.currentStreak > u.currentStreak
           ∧ (touchStreak u now).user.currentStreak % 7 = 0
        then some ((touchStreak u now).user.currentStreak) else none := rfl
    rw [heq, h1]
    norm_num

/-- Witness for C3: a same-day touch awards no bonus. -/
theorem c3_witness : (touchStreak graceUser 1000).bonus = none :=
  (c3_weekly_streak_bonus graceUser 1000).2.1 (by decide)

/-- Claim C4: the level is a pure function of the points,
levelOf(p) = floor(p / 100) + 1, with levelOf 0 = 1, levelOf 99 = 1,
levelOf 100 = 2, and the points-update route stores exactly this level
for the new point total (add adds, set replaces). -/
theorem c4_level_pure_function :
    (∀ p : ℕ, levelOf (p : Int) = ((p / 100 : ℕ) : Int) + 1)
    ∧ levelOf 0 = 1 ∧ levelOf 99 = 1 ∧ levelOf 100 = 2
    ∧ (∀ (u : User) (action : String) (pts : Int),
        (updatePointsUser u action pts).level =
          levelOf (updatePointsUser u action pts).points)
    ∧ (∀ (u : User) (pts : Int), (updatePointsUser u "add" pts).points = u.points + pts)
    ∧ (∀ (u : User) (pts : Int), (updatePointsUser u "set" pts).points = pts) := by
  refine ⟨fun p => ?_, by decide, by decide, by decide,
    fun u a pts => rfl, fun u pts => ?_, fun u pts => ?_⟩
  · simp only [levelOf, Int.fdiv_eq_ediv _ (by norm_num : (0:Int) ≤ 100)]
    omega
  · simp [updatePointsUser]
  · simp [updatePointsUser]

/-- Claim C5: every streak touch preserves the invariant
longestStreak ≥ currentStreak. -/
theorem c5_longest_streak_invariant (u : User) (now : Int)
    (h : u.currentStreak ≤ u.longestStreak) :
    (touchStreak u now).user.currentStreak ≤ (touchStreak u now).user.longestStreak :=
  le_max_left _ _

/-- Witness for C5: the invariant after a concrete touch. -/
theorem c5_witness :
    (touchStreak rankUserA 86400000).user.currentStreak ≤
      (touchStreak rankUserA 86400000).user.longestStreak :=
  c5_longest_streak_invariant rankUserA 86400000 (by decide)

/-- Claim C6: the individually reported rank is the count of users
with strictly greater points plus one; for three users with 450, 320,
280 points the ranks are 1, 2, 3 and page 1 of the ranking lists them
in that order with those positions. -/
theorem c6_individual_rank_count_above :
    (∀ (s : Store) (id : String) (u : User), findUser s id = some u →
      userRank s id =
        some ((s.users.filter (fun v => decide (u.points < v.points))).length + 1))
    ∧ userRank rankStore "A" = some 1
    ∧ userRank rankStore "B" = some 2
    ∧ userRank rankStore "C" = some 3
    ∧ rankingList rankStore "global" 0 1 10 =
        [⟨1, "A", 450, 0⟩, ⟨2, "B", 320, 0⟩, ⟨3, "C", 280, 0⟩] := by
  refine ⟨fun s id u hu => ?_, by decide, by decide, by decide, by decide⟩
  simp [userRank, hu]

/-- Witness for C6: the middle user's rank computed through the
general statement. -/
theorem c6_witness :
    userRank rankStore "B" =
      some ((rankStore.users.filter
        (fun v => decide (rankUserB.points < v.points))).length + 1) :=
  c6_individual_rank_count_above.1 rankStore "B" rankUserB (by decide)

/-- Claim C7 (code bug): the monthly date filter is computed but never
used, so the monthly ranking is identical to the global one for every
store and never restricts to current-month contributions; a user whose
only contribution predates the start of the month is still listed with
lifetime points and that contribution counted. -/
theorem c7_monthly_filter_never_applied :
    (∀ (s : Store) (startOfMonth startOfMonth2 : Int) (page limit : Nat),
      rankingList s "monthly" startOfMonth page limit =
        rankingList s "global" startOfMonth2 page limit)
    ∧ rankingList monthStore "monthly" 1000 1 10 = [⟨1, "A", 450, 1⟩] :=
  ⟨fun _ _ _ _ _ => rfl, by decide⟩

/-- Counterexample for C8: at now - lastActiveAt of exactly 48 hours
the grace window is not exceeded in the claim's strict sense, yet the
view reports 0 instead of the persisted streak of 5. -/
theorem c8_counterexample :
    (getStreakView graceUser (48 * msPerHour)).currentStreak = 0
    ∧ ¬ (48 * msPerHour - graceUser.lastActiveAt > 48 * msPerHour)
    ∧ ¬ (getStreakView graceUser (48 * msPerHour)).currentStreak
          = graceUser.currentStreak := by
  decide

/-- Claim C8 (amended): the streak read view mutates nothing and
reports the displayed streak as zero exactly when
now - lastActiveAt ≥ 48 hours (the source tests hoursSinceActive < 48
for activity), otherwise it reports the persisted currentStreak;
longestStreak and lastActiveAt are reported unchanged. -/
theorem c8_grace_window_read_view :
    (∀ (s : Store) (id : String) (now : Int), (getStreakHandler s id now).1 = s)
    ∧ (∀ (s : Store) (id : String) (u : User) (now : Int), findUser s id = some u →
        (getStreakHandler s id now).2 = some (getStreakView u now))
    ∧ (∀ (u : User) (now : Int), (getStreakView u now).currentStreak =
        if 48 * msPerHour ≤ now - u.lastActiveAt then 0 else u.currentStreak)
    ∧ (∀ (u : User) (now : Int), (getStreakView u now).longestStreak = u.longestStreak
        ∧ (getStreakView u now).lastActiveAt = u.lastActiveAt) := by
  refine ⟨fun s id now => ?_, fun s id u now hu => ?_, fun u now => ?_,
    fun u now => ⟨rfl, rfl⟩⟩
  · cases h : findUser s id <;> simp [getStreakHandler, h]
  · simp [getStreakHandler, hu]
  · by_cases h : now - u.lastActiveAt < 48 * msPerHour
    · rw [if_neg (by omega)]
      simp [getStreakView, h]
    · rw [if_pos (by omega)]
      simp [getStreakView, h]

/-- Witness for C8: the read view of a found user. -/
theorem c8_witness :
    (getStreakHandler ⟨[graceUser], [], [], []⟩ "G" 7).2 =
      some (getStreakView graceUser 7) :=
  c8_grace_window_read_view.2.1 ⟨[graceUser], [], [], []⟩ "G" graceUser 7 (by decide)

/-- Claim C9: the reported progress to the next level is exactly
(points mod 100) / (level * 100) * 100 clamped to at most 100, with
the stored level in the denominator; at points 150 and level 2 this
yields 25, not the 50 of the mod-100-as-percentage variant. -/
theorem c9_level_progress_exact_formula :
    (∀ points level : Int, 0 ≤ points → 1 ≤ level →
      gamificationProgress points level = claimedLevelProgress points level)
    ∧ gamificationProgress 150 2 = 25
    ∧ claimedLevelProgress 150 2 = 25
    ∧ (((150 : Int) % 100 : Int) : ℚ) = 50
    ∧ (25 : ℚ) ≠ 50 := by
  refine ⟨fun p l _ _ => ?_, ?_, ?_, by norm_num, by norm_num⟩
  · unfold gamificationProgress claimedLevelProgress
    push_cast
    ring_nf
  · norm_num [gamificationProgress]
  · norm_num [claimedLevelProgress]

/-- Witness for C9: formula agreement at points 40, level 1. -/
theorem c9_witness : gamificationProgress 40 1 = claimedLevelProgress 40 1 :=
  c9_level_progress_exact_formula.1 40 1 (by norm_num) (by norm_num)

/-- Claim C10: the points-update route writes only the addressed
user's points and level (add adds, set replaces, level recomputed from
the new points), leaves the streak fields, all other tables, and the
contribution ledger untouched, and therefore breaks the
ledger-sum-equals-points balance whenever the delta is nonzero. -/
theorem c10_points_update_frame (s : Store) (id : String) (u : User)
    (pts : Int) (action : String) (hu : findUser s id = some u) :
    ((updatePointsHandler s id (some pts) action).1.contributions = s.contributions
     ∧ (updatePointsHandler s id (some pts) action).1.badges = s.badges
     ∧ (updatePointsHandler s id (some pts) action).1.userBadges = s.userBadges
     ∧ (updatePointsHandler s id (some pts) action).1.users =
         s.users.map (fun v => if v.id = id then updatePointsUser v action pts else v))
    ∧ ((updatePointsUser u action pts).currentStreak = u.currentStreak
       ∧ (updatePointsUser u action pts).longestStreak = u.longestStreak
       ∧ (updatePointsUser u action pts).lastActiveAt = u.lastActiveAt
       ∧ (updatePointsUser u action pts).id = u.id
       ∧ (updatePointsUser u action pts).level =
           levelOf (updatePointsUser u action pts).points)
    ∧ (¬ action = "set" → (updatePointsUser u action pts).points = u.points + pts)
    ∧ (action = "set" → (updatePointsUser u action pts).points = pts)
    ∧ ledgerSum (updatePointsHandler s id (some pts) action).1 id = ledgerSum s id
    ∧ (ledgerSum s id = u.points → ¬ action = "set" → ¬ pts = 0 →
        ¬ ledgerSum (updatePointsHandler s id (some pts) action).1 id =
            (updatePointsUser u action pts).points)
    ∧ (ledgerSum s id = u.points → action = "set" → ¬ pts = u.points →
        ¬ ledgerSum (updatePointsHandler s id (some pts) action).1 id =
            (updatePointsUser u action pts).points) := by
  have hpres : ledgerSum (updatePointsHandler s id (some pts) action).1 id
      = ledgerSum s id := by
    simp [ledgerSum, updatePointsHandler, hu]
  refine ⟨⟨?_, ?_, ?_, ?_⟩, ⟨rfl, rfl, rfl, rfl, rfl⟩,
    fun hact => ?_, fun hact => ?_, hpres, fun hsum hact hpts => ?_,
    fun hsum hact hpts => ?_⟩
  · simp [updatePointsHandler, hu]
  · simp [updatePointsHandler, hu]
  · simp [updatePointsHandler, hu]
  · simp [updatePointsHandler, hu]
  · simp [updatePointsUser, hact]
  · simp [updatePointsUser, hact]
  · rw [hpres, hsum]
    have hp : (updatePointsUser u action pts).points = u.points + pts := by
      simp [updatePointsUser, hact]
    rw [hp]
    omega
  · rw [hpres, hsum]
    have hp : (updatePointsUser u action pts).points = pts := by
      simp [updatePointsUser, hact]
    rw [hp]
    omega

/-- Witness for C10: adding 5 points to a user whose ledger sum was in
balance leaves the ledger sum different from the new points field. -/
theorem c10_witness :
    ¬ ledgerSum (updatePointsHandler ledgerStore "u1" (some 5) "add").1 "u1" =
        (updatePointsUser ledgerUser "add" 5).points := by
  have h := c10_points_update_frame ledgerStore "u1" ledgerUser 5 "add" (by decide)
  exact h.2.2.2.2.2.1 (by decide) (by decide) (by decide)

end ArcticCare
